import Mathlib

/-!
Verification of the GOJI analytics/payroll core (frontend/src/lib/aiService.ts
plus the payroll derivation in the payroll page).

Shallow embedding conventions:
* JS numbers are modelled as exact rationals (ℚ); `Math.sqrt` forces the
  anomaly threshold comparison into ℝ, so the anomaly detector is a
  proposition rather than a boolean.
* `Math.round x` is modelled by the Mathlib function `round` (`⌊x + 1/2⌋`), which agrees
  with JS `Math.round` on all inputs, negatives included.
* Dates are modelled structurally as (year, month, day) triples compared
  lexicographically; the functions that read the wall clock
  (`calculateHealthScore`, `predictCashFlow`, `analyzeSpendingPatterns`)
  take the relevant "now"/cutoff value as an explicit argument.
* The one place where the source can divide by zero on reachable inputs
  (`changePercent` in `analyzeSpendingPatterns`) is modelled with an
  IEEE-style extended value (`JsNum`) so that the JS `Infinity`/`NaN`
  outcomes are represented faithfully.
* Record fields of the TypeScript interfaces that none of the modelled
  functions read (ids, currencies, vendor names, ...) are omitted.
-/

/-- Calendar date as stored in `expense_date`, modelled structurally. -/
structure EDate where
  year : Int
  month : Int
  day : Int
deriving DecidableEq

/-- Date comparison (`new Date(a) <= new Date(b)`) on valid structural dates. -/
def EDate.leb (a b : EDate) : Bool :=
  a.year < b.year ||
    (a.year == b.year &&
      (a.month < b.month || (a.month == b.month && a.day ≤ b.day)))

/-- The fields of the `Expense` record read by the analytics functions. -/
structure Expense where
  amount : ℚ
  category : String
  expense_date : EDate
  status : String
  is_anomaly : Bool
deriving DecidableEq

/-- The fields of the `Budget` record read by `calculateHealthScore`
(plus `is_active`, which claim C5 is about). -/
structure Budget where
  category : String
  monthly_limit : ℚ
  is_active : Bool
deriving DecidableEq

/-! ## Payroll calculator (PayrollPage `calculatePayroll`) -/

/-- Period-adjustment form data (`formData`) consumed by `calculatePayroll`.
All fields default to 0 in the source form. -/
structure PayrollForm where
  overtime_hours : ℚ
  bonus : ℚ
  allowances : ℚ
  tax : ℚ
  insurance : ℚ
  provident_fund : ℚ
  loan_repayment : ℚ
  other_deductions : ℚ
  unpaid_leaves : ℚ
deriving DecidableEq

/-- The derived amounts returned by `calculatePayroll`. -/
structure PayrollResult where
  base_salary : ℚ
  overtime_pay : ℚ
  gross_salary : ℚ
  tax : ℚ
  insurance : ℚ
  provident_fund : ℚ
  total_deductions : ℚ
  leave_deduction : ℚ
  net_salary : ℚ
deriving DecidableEq

/-- `calculatePayroll` from the payroll page.  A JS `x || y` default on a
numeric form field means "use `y` when the field is 0", which is modelled by
the explicit zero tests on the three override fields. -/
def calculatePayroll (baseSalary : ℚ) (f : PayrollForm) : PayrollResult :=
  let overtimePay := f.overtime_hours * (baseSalary / 176) * (3 / 2)
  let grossSalary := baseSalary + overtimePay + f.bonus + f.allowances
  let tax := if f.tax = 0 then grossSalary * (15 / 100) else f.tax
  let insurance := if f.insurance = 0 then 150 else f.insurance
  let providentFund := if f.provident_fund = 0 then grossSalary * (8 / 100) else f.provident_fund
  let totalDeductions :=
    tax + insurance + providentFund + f.loan_repayment + f.other_deductions
  let leaveDeduction := (baseSalary / 22) * f.unpaid_leaves
  let netSalary := grossSalary - totalDeductions - leaveDeduction
  { base_salary := baseSalary
    overtime_pay := overtimePay
    gross_salary := grossSalary
    tax := tax
    insurance := insurance
    provident_fund := providentFund
    total_deductions := totalDeductions
    leave_deduction := leaveDeduction
    net_salary := netSalary }

/-! ## Anomaly detector (`detectAnomaly`) -/

/-- Mean of a list of amounts (`reduce((sum, val) => sum + val, 0) / length`). -/
def listMean (l : List ℚ) : ℚ := l.sum / l.length

/-- Population variance of a list of amounts
(`reduce((sum, val) => sum + (val - avg)^2, 0) / length`). -/
def listPopVar (l : List ℚ) : ℚ :=
  ((l.map fun v => (v - listMean l) ^ 2).sum) / l.length

/-- `detectAnomaly(amount, category, historicalExpenses)`.  The standard
deviation is `Math.sqrt` of the population variance, so the final comparison
lives in ℝ and the embedded detector is the proposition "the source returns
`true`". -/
def detectAnomaly (amount : ℚ) (category : String) (historicalExpenses : List Expense) : Prop :=
  let categoryExpenses := historicalExpenses.filter fun e => e.category == category
  if categoryExpenses.isEmpty then False
  else
    let amounts := categoryExpenses.map Expense.amount
    (amount : ℝ) >
      (listMean amounts : ℝ) + 2 * Real.sqrt (listPopVar amounts : ℝ)

/-- Concrete expense history from the spec scenario: five "software"
expenses with amounts 100, 100, 100, 100, 5000. -/
def softwareHist : List Expense :=
  [⟨100, "software", ⟨2024, 1, 1⟩, "approved", false⟩,
   ⟨100, "software", ⟨2024, 1, 2⟩, "approved", false⟩,
   ⟨100, "software", ⟨2024, 1, 3⟩, "approved", false⟩,
   ⟨100, "software", ⟨2024, 1, 4⟩, "approved", false⟩,
   ⟨5000, "software", ⟨2024, 1, 5⟩, "approved", false⟩]

/-! ## Health scorer (`calculateHealthScore`) -/

/-- `Number(x.toFixed(1))`: round to one decimal digit. -/
def toFixed1 (q : ℚ) : ℚ := (round (q * 10) : ℚ) / 10

/-- The `FinancialInsight` record returned by `calculateHealthScore`. -/
structure FinancialInsight where
  overall_score : ℚ
  expense_health : ℚ
  payroll_health : ℚ
  budget_adherence : ℚ
  grade : String
  insights : List String
deriving DecidableEq

/-- `anomalyRate`: share of expenses flagged `is_anomaly`, with the
`Math.max(expenses.length, 1)` denominator guard. -/
def anomalyRateOf (expenses : List Expense) : ℚ :=
  ((expenses.filter fun e => e.is_anomaly).length : ℚ) / ((max expenses.length 1 : ℕ) : ℚ)

/-- `pendingRate`: share of expenses with status `pending`. -/
def pendingRateOf (expenses : List Expense) : ℚ :=
  ((expenses.filter fun e => e.status == "pending").length : ℚ) /
    ((max expenses.length 1 : ℕ) : ℚ)

/-- Component 1, expense health (cap 40). -/
def expenseScoreOf (expenses : List Expense) : ℚ :=
  max 0 (40 - anomalyRateOf expenses * 15 - pendingRateOf expenses * 10)

/-- Component 2, payroll health (cap 30); `pendingPayroll` is the count of
draft payroll records supplied by the caller. -/
def payrollScoreOf (pendingPayroll : ℕ) : ℚ :=
  max 0 (30 - (pendingPayroll : ℚ) * 5)

/-- Spend in `category` among expenses dated in the current calendar month
`now = (year, month)`. -/
def monthlySpendOf (expenses : List Expense) (now : Int × Int) (category : String) : ℚ :=
  let monthlyExpenses := expenses.filter fun e =>
    e.expense_date.month == now.2 && e.expense_date.year == now.1
  ((monthlyExpenses.filter fun e => e.category == category).map Expense.amount).sum

/-- Component 3, budget adherence (cap 30): start at 30, subtract 10 for
each budget whose current-month category spend exceeds its monthly limit,
then floor at 0.  Note the source iterates over every supplied budget; it
never reads `is_active`. -/
def budgetScoreOf (expenses : List Expense) (budgets : List Budget) (now : Int × Int) : ℚ :=
  max 0 (budgets.foldl
    (fun s b => if b.monthly_limit < monthlySpendOf expenses now b.category then s - 10 else s)
    30)

/-- The grade conditional of `calculateHealthScore`, applied in the source to
the unrounded 0–10 score. -/
def gradeOf (scoreOutOf10 : ℚ) : String :=
  if 9 ≤ scoreOutOf10 then "A"
  else if 7 ≤ scoreOutOf10 then "B"
  else if 5 ≤ scoreOutOf10 then "C"
  else if 3 ≤ scoreOutOf10 then "D"
  else "F"

/-- `calculateHealthScore(expenses, budgets, pendingPayroll)`, with the wall
clock passed explicitly as `now = (year, month)`. -/
def calculateHealthScore (expenses : List Expense) (budgets : List Budget)
    (pendingPayroll : ℕ) (now : Int × Int) : FinancialInsight :=
  let anomalyRate := anomalyRateOf expenses
  let pendingRate := pendingRateOf expenses
  let expenseScore := expenseScoreOf expenses
  let payrollScore := payrollScoreOf pendingPayroll
  let budgetScore := budgetScoreOf expenses budgets now
  let total := expenseScore + payrollScore + budgetScore
  let scoreOutOf10 := total / 10
  let grade := gradeOf scoreOutOf10
  let insights :=
    (if 1 / 10 < anomalyRate then ["High number of unusual expenses detected"] else []) ++
    (if 2 / 10 < pendingRate then ["Many expenses pending approval"] else []) ++
    (if budgetScore < 20 then ["Multiple budget categories exceeded"] else []) ++
    (if 7 ≤ scoreOutOf10 then ["Overall financial health is good"] else [])
  { overall_score := toFixed1 scoreOutOf10
    expense_health := toFixed1 (expenseScore / 4)
    payroll_health := toFixed1 (payrollScore / 3)
    budget_adherence := toFixed1 (budgetScore / 3)
    grade := grade
    insights := insights }

/-- An expense flagged as an anomaly (current month of `(2024, 1)`). -/
def anomExp : Expense := ⟨10, "ops", ⟨2024, 1, 2⟩, "approved", true⟩

/-- A pending expense. -/
def pendExp : Expense := ⟨10, "ops", ⟨2024, 1, 2⟩, "pending", false⟩

/-- An unremarkable approved expense. -/
def okExp : Expense := ⟨10, "ops", ⟨2024, 1, 2⟩, "approved", false⟩

/-- Twenty expenses: 13 anomalous, 1 pending, 6 plain, giving an expense
component of 40 − (13/20)·15 − (1/20)·10 = 29.75 and a raw score of 8.975. -/
def exC2 : List Expense :=
  [anomExp, anomExp, anomExp, anomExp, anomExp, anomExp, anomExp, anomExp,
   anomExp, anomExp, anomExp, anomExp, anomExp, pendExp,
   okExp, okExp, okExp, okExp, okExp, okExp]

/-! ## Categorizer (`categorizeExpense`) -/

/-- Substring containment, `text.includes(pat)`. -/
def strContains (s pat : String) : Bool :=
  (List.range (s.data.length + 1)).any fun i => pat.data.isPrefixOf (s.data.drop i)

/-- The fixed `categoryKeywords` table, in declaration order. -/
def categoryKeywords : List (String × List String) :=
  [("marketing", ["ad", "ads", "marketing", "campaign", "social media", "facebook",
                  "google ads", "seo", "ppc"]),
   ("software", ["aws", "cloud", "saas", "software", "subscription", "license",
                 "github", "azure", "heroku", "digital ocean"]),
   ("rent", ["rent", "lease", "office space", "property", "landlord"]),
   ("utilities", ["electric", "electricity", "water", "gas", "internet", "phone", "utility"]),
   ("travel", ["flight", "hotel", "airbnb", "uber", "lyft", "airline", "travel",
               "transportation"]),
   ("office_supplies", ["office", "supplies", "stationery", "furniture", "equipment", "depot"]),
   ("payroll", ["salary", "wage", "payroll", "compensation"]),
   ("other", [])]

/-- Number of keywords of a category that occur in the text (the inner
`for (const keyword of keywords)` counting loop). -/
def keywordScore (text : String) (keywords : List String) : Nat :=
  (keywords.filter fun k => strContains text k.toLower).length

/-- `categorizeExpense(title, description, amount)`. -/
def categorizeExpense (title description : String) (amount : ℚ) : String × ℚ :=
  let text := (title ++ " " ++ description).toLower
  let best := categoryKeywords.foldl
    (fun (best : String × Nat) ck =>
      if ck.1 = "other" then best
      else if best.2 < keywordScore text ck.2 then (ck.1, keywordScore text ck.2) else best)
    ("other", 0)
  let confidence : ℚ :=
    if 0 < best.2 then min ((7 / 10 : ℚ) + (best.2 : ℚ) * (1 / 10)) (98 / 100) else 1 / 2
  (best.1, confidence)

/-- Leftmost pair attaining the maximal score among `d :: l` (ties keep the
earlier entry) — the claim rule "strictly highest count, first-encountered on
ties" selection rule. -/
def leftmostMax1 : String × Nat → List (String × Nat) → String × Nat
  | d, [] => d
  | d, p :: l => if (leftmostMax1 p l).2 ≤ d.2 then d else leftmostMax1 p l

/-- The scores of the non-"other" categories, in declaration order. -/
def scoredCategories (text : String) : List (String × Nat) :=
  (categoryKeywords.filter fun ck => ck.1 ≠ "other").map
    fun ck => (ck.1, keywordScore text ck.2)

/-- The claim description of the categorizer: take the category with the
strictly highest keyword-match count (first-encountered on ties); best score
0 yields ("other", 0.5), otherwise confidence min(0.7 + 0.1·score, 0.98). -/
def claimCategorize (title description : String) : String × ℚ :=
  let text := (title ++ " " ++ description).toLower
  let best := leftmostMax1 ("other", 0) (scoredCategories text)
  if best.2 = 0 then ("other", 1 / 2)
  else (best.1, min ((7 / 10 : ℚ) + (best.2 : ℚ) * (1 / 10)) (98 / 100))

/-! ## Cash-flow forecaster (`predictCashFlow`) -/

/-- A cash-flow prediction.  The locale month label of the source is modelled as
the structural `(year, month)` of the predicted month. -/
structure CashFlowPrediction where
  month : Int × Int
  predicted_expenses : Int
  confidence_interval : Int × Int
  budget : ℚ
  likely_overrun : Bool
deriving DecidableEq

/-- Insert an amount into the month-keyed totals, preserving first-seen key
order (JS object insertion order for the `"YYYY-MM"` keys). -/
def addToMonth : List ((Int × Int) × ℚ) → Int × Int → ℚ → List ((Int × Int) × ℚ)
  | [], key, amt => [(key, amt)]
  | (k, v) :: rest, key, amt =>
      if k = key then (k, v + amt) :: rest else (k, v) :: addToMonth rest key amt

/-- `monthlyTotals`: per-month expense sums, in first-encounter order. -/
def monthlyTotals (hist : List Expense) : List ((Int × Int) × ℚ) :=
  hist.foldl (fun acc e => addToMonth acc (e.expense_date.year, e.expense_date.month) e.amount) []

/-- The simple mean of the monthly bucket totals. -/
def avgOf (hist : List Expense) : ℚ :=
  let totals := (monthlyTotals hist).map Prod.snd
  totals.sum / (totals.length : ℚ)

/-- `trend = (totals[0] - totals[totals.length - 1]) / totals.length` when
there is more than one bucket, else 0. -/
def trendOf (hist : List Expense) : ℚ :=
  let totals := (monthlyTotals hist).map Prod.snd
  if 1 < totals.length then (totals.headI - totals.getLastD 0) / (totals.length : ℚ) else 0

/-- `now + i` months on `(year, month)` labels with month in 1..12. -/
def addMonths (now : Int × Int) (i : ℕ) : Int × Int :=
  (now.1 + (now.2 - 1 + i) / 12, (now.2 - 1 + i) % 12 + 1)

/-- The prediction pushed for horizon `i`. -/
def mkPrediction (avg trend : ℚ) (monthlyBudget : ℚ) (now : Int × Int) (i : ℕ) :
    CashFlowPrediction :=
  let predicted := avg + trend * (i : ℚ)
  let margin := predicted * (15 / 100)
  { month := addMonths now i
    predicted_expenses := round predicted
    confidence_interval := (round (predicted - margin), round (predicted + margin))
    budget := monthlyBudget
    likely_overrun := decide (monthlyBudget < predicted) }

/-- `predictCashFlow(historicalExpenses, monthlyBudget, monthsAhead)`, with
the wall clock passed explicitly. -/
def predictCashFlow (historicalExpenses : List Expense) (monthlyBudget : ℚ)
    (monthsAhead : ℕ) (now : Int × Int) : List CashFlowPrediction :=
  (List.range monthsAhead).map fun j =>
    mkPrediction (avgOf historicalExpenses) (trendOf historicalExpenses) monthlyBudget now (j + 1)

/-- A January expense of 100 (first-seen month bucket). -/
def expJan : Expense := ⟨100, "ops", ⟨2024, 1, 10⟩, "approved", false⟩

/-- A February expense of 1000 (second month bucket). -/
def expFeb : Expense := ⟨1000, "ops", ⟨2024, 2, 10⟩, "approved", false⟩

/-! ## Pattern analyzer (`analyzeSpendingPatterns`) -/

/-- A spending pattern record. -/
structure SpendingPattern where
  type : String
  category : String
  change : String
  recommendation : String
  priority : String
deriving DecidableEq

/-- IEEE-style extended value of the `changePercent` computation, which in
JS becomes ±Infinity or NaN when `olderAvg` is 0 (the source has no guard). -/
inductive JsNum where
  | fin : ℚ → JsNum
  | posInf : JsNum
  | negInf : JsNum
  | nan : JsNum
deriving DecidableEq

/-- JS division of finite doubles: `a / 0` is ±Infinity for `a ≠ 0` and NaN
for `0 / 0`; otherwise exact. -/
def jsDiv (a b : ℚ) : JsNum :=
  if b = 0 then (if 0 < a then .posInf else if a < 0 then .negInf else .nan)
  else .fin (a / b)

/-- Multiplication by a positive finite constant (the trailing `* 100`). -/
def JsNum.mulPos : JsNum → ℚ → JsNum
  | .fin q, c => .fin (q * c)
  | .posInf, _ => .posInf
  | .negInf, _ => .negInf
  | .nan, _ => .nan

/-- `Math.abs(x) > t` for a finite threshold; false on NaN. -/
def JsNum.absGt : JsNum → ℚ → Bool
  | .fin q, t => decide (t < |q|)
  | .posInf, _ => true
  | .negInf, _ => true
  | .nan, _ => false

/-- `x > 0`; false on NaN. -/
def JsNum.gtZero : JsNum → Bool
  | .fin q => decide (0 < q)
  | .posInf => true
  | .negInf => false
  | .nan => false

/-- `${Math.round(x)}` as rendered into the change string. -/
def JsNum.roundStr : JsNum → String
  | .fin q => toString (round q)
  | .posInf => "Infinity"
  | .negInf => "-Infinity"
  | .nan => "NaN"

/-- Append an amount to the bucket of its category, keys in first-seen order
(JS object insertion order of `categoryTotals`). -/
def addAmt : List (String × List ℚ) → String → ℚ → List (String × List ℚ)
  | [], c, a => [(c, [a])]
  | (k, v) :: rest, c, a =>
      if k = c then (k, v ++ [a]) :: rest else (k, v) :: addAmt rest c a

/-- `categoryTotals`: amounts grouped by category in encounter order. -/
def groupByCategory (l : List Expense) : List (String × List ℚ) :=
  l.foldl (fun acc e => addAmt acc e.category e.amount) []

/-- The body of the `Object.entries(categoryTotals).forEach` loop: the
pattern pushed for one category, if any. -/
def patternOf (category : String) (amounts : List ℚ) : Option SpendingPattern :=
  if amounts.length < 3 then none
  else
    let recent := amounts.take (amounts.length / 2)
    let older := amounts.drop (amounts.length / 2)
    let recentAvg := recent.sum / (recent.length : ℚ)
    let olderAvg := older.sum / (older.length : ℚ)
    let changePercent := (jsDiv (recentAvg - olderAvg) olderAvg).mulPos 100
    if changePercent.absGt 20 then
      some { type := if changePercent.gtZero then "increase" else "decrease"
             category := category
             change := (if changePercent.gtZero then "+" else "") ++ changePercent.roundStr ++ "%"
             recommendation :=
               if changePercent.gtZero then "Review recent purchases and ROI"
               else "Spending is decreasing, monitor for impact"
             priority := if changePercent.absGt 40 then "high" else "medium" }
    else none

/-- `categoryTotals` computed over the analysis window
(`expense_date >= cutoffDate`). -/
def windowGroups (expenses : List Expense) (cutoffDate : EDate) : List (String × List ℚ) :=
  groupByCategory (expenses.filter fun e => cutoffDate.leb e.expense_date)

/-- The increase/decrease patterns pushed by the per-category loop. -/
def mainPatterns (expenses : List Expense) (cutoffDate : EDate) : List SpendingPattern :=
  (windowGroups expenses cutoffDate).filterMap fun g => patternOf g.1 g.2

/-- `stableCategories`: every grouped category key — whatever its number of
data points — that produced no pattern. -/
def stableCandidates (expenses : List Expense) (cutoffDate : EDate) : List String :=
  ((windowGroups expenses cutoffDate).map Prod.fst).filter fun cat =>
    !((mainPatterns expenses cutoffDate).any fun p => p.category == cat)

/-- `analyzeSpendingPatterns(expenses, monthsToAnalyze)`; the cutoff date
`now − monthsToAnalyze months` is passed explicitly. -/
def analyzeSpendingPatterns (expenses : List Expense) (cutoffDate : EDate) :
    List SpendingPattern :=
  mainPatterns expenses cutoffDate ++
    (match stableCandidates expenses cutoffDate with
     | [] => []
     | c :: _ => [{ type := "stable", category := c, change := "±5%",
                    recommendation := "Spending is stable and predictable",
                    priority := "low" }])

/-- A lone expense in category "a" inside the analysis window. -/
def lonePoint : Expense := ⟨7, "a", ⟨2024, 5, 10⟩, "approved", false⟩

/-- The analysis-window cutoff used by the concrete pattern examples. -/
def cutC7 : EDate := ⟨2024, 1, 1⟩

/-- A lone expense in category "w", used to exercise the
amended C7 statement on a concrete input. -/
def loneW : Expense := ⟨3, "w", ⟨2024, 4, 2⟩, "approved", false⟩

/-- Three same-category expenses 5, 0, 0: the older half has average 0. -/
def zeroOlder1 : Expense := ⟨5, "z", ⟨2024, 3, 1⟩, "approved", false⟩

/-- Second expense of the zero-older-half history. -/
def zeroOlder2 : Expense := ⟨0, "z", ⟨2024, 3, 2⟩, "approved", false⟩

/-- Third expense of the zero-older-half history. -/
def zeroOlder3 : Expense := ⟨0, "z", ⟨2024, 3, 3⟩, "approved", false⟩

/-- A current-month expense of 100 in category "x". -/
def exC5 : Expense := ⟨100, "x", ⟨2024, 1, 5⟩, "approved", false⟩

/-- An inactive budget of limit 10 for category "x". -/
def inactiveBudget : Budget := ⟨"x", 10, false⟩

/-! ## Theorems -/

/-- Claim C1: for every base salary and period adjustments, the payroll
calculator output fields satisfy `gross_salary = base_salary + overtime_pay +
bonus + allowances`, `total_deductions = tax + insurance + provident_fund +
loan_repayment + other_deductions`, `net_salary = gross_salary -
total_deductions - leave_deduction`, with `overtime_pay = overtime_hours ×
(base_salary/176) × 1.5` and `leave_deduction = (base_salary/22) ×
unpaid_leaves`. -/
theorem calculatePayroll_invariants (baseSalary : ℚ) (f : PayrollForm) :
    (calculatePayroll baseSalary f).gross_salary =
        (calculatePayroll baseSalary f).base_salary +
        (calculatePayroll baseSalary f).overtime_pay + f.bonus + f.allowances ∧
    (calculatePayroll baseSalary f).total_deductions =
        (calculatePayroll baseSalary f).tax +
        (calculatePayroll baseSalary f).insurance +
        (calculatePayroll baseSalary f).provident_fund +
        f.loan_repayment + f.other_deductions ∧
    (calculatePayroll baseSalary f).net_salary =
        (calculatePayroll baseSalary f).gross_salary -
        (calculatePayroll baseSalary f).total_deductions -
        (calculatePayroll baseSalary f).leave_deduction ∧
    (calculatePayroll baseSalary f).overtime_pay =
        f.overtime_hours * (baseSalary / 176) * (3 / 2) ∧
    (calculatePayroll baseSalary f).leave_deduction =
        (baseSalary / 22) * f.unpaid_leaves :=
  ⟨rfl, rfl, rfl, rfl, rfl⟩

/-- Claim C3: `detectAnomaly` returns false when no historical expense has
the given category, and otherwise returns true exactly when the amount
strictly exceeds mean + 2 × population standard deviation of the
same-category historical amounts. -/
theorem detectAnomaly_spec (amount : ℚ) (category : String) (hist : List Expense) :
    ((hist.filter fun e => e.category == category) = [] →
        ¬ detectAnomaly amount category hist) ∧
    ((hist.filter fun e => e.category == category) ≠ [] →
      (detectAnomaly amount category hist ↔
        (amount : ℝ) >
          (listMean ((hist.filter fun e => e.category == category).map Expense.amount) : ℝ) +
            2 * Real.sqrt
              (listPopVar ((hist.filter fun e => e.category == category).map Expense.amount) : ℝ))) := by
  constructor
  · intro h
    simp [detectAnomaly, h]
  · intro h
    simp only [detectAnomaly, List.isEmpty_iff, h, if_neg, ite_false]

/-- Witness for C3: on the spec scenario history (mean 1080, population
variance 3841600 = 1960², threshold exactly 5000) an amount of 5001 is
flagged as an anomaly. -/
theorem detectAnomaly_spec_witness : detectAnomaly 5001 "software" softwareHist := by
  have h := (detectAnomaly_spec 5001 "software" softwareHist).2 (by decide)
  rw [h]
  have hm : listMean ((softwareHist.filter fun e => e.category == "software").map Expense.amount)
      = 1080 := by norm_num [listMean, softwareHist]
  have hv : listPopVar ((softwareHist.filter fun e => e.category == "software").map Expense.amount)
      = 3841600 := by norm_num [listPopVar, listMean, softwareHist]
  rw [hm, hv]
  have hs : Real.sqrt ((3841600 : ℚ) : ℝ) = 1960 := by
    have : ((3841600 : ℚ) : ℝ) = (1960 : ℝ) ^ 2 := by norm_num
    rw [this, Real.sqrt_sq (by norm_num)]
  rw [hs]
  norm_num

/-- The budget `forEach` loop subtracts 10 exactly once per budget whose
current-month spend exceeds its limit. -/
lemma budget_foldl_eq_countP (expenses : List Expense) (now : Int × Int)
    (l : List Budget) (s : ℚ) :
    l.foldl
        (fun s b => if b.monthly_limit < monthlySpendOf expenses now b.category then s - 10 else s)
        s
      = s - 10 * (l.countP fun b =>
          decide (b.monthly_limit < monthlySpendOf expenses now b.category)) := by
  induction l generalizing s with
  | nil => simp
  | cons b l ih =>
      by_cases h : b.monthly_limit < monthlySpendOf expenses now b.category
      · simp only [List.foldl_cons, List.countP_cons, h, if_pos, decide_eq_true_eq,
          if_true, ih]
        push_cast
        ring
      · simp only [List.foldl_cons, List.countP_cons, h, decide_eq_true_eq, if_false,
          ite_false, ih]
        norm_num

lemma expenseScoreOf_bounds (expenses : List Expense) :
    0 ≤ expenseScoreOf expenses ∧ expenseScoreOf expenses ≤ 40 := by
  constructor
  · exact le_max_left 0 _
  · apply max_le (by norm_num)
    have h1 : 0 ≤ anomalyRateOf expenses := by
      unfold anomalyRateOf; positivity
    have h2 : 0 ≤ pendingRateOf expenses := by
      unfold pendingRateOf; positivity
    nlinarith

lemma payrollScoreOf_bounds (pendingPayroll : ℕ) :
    0 ≤ payrollScoreOf pendingPayroll ∧ payrollScoreOf pendingPayroll ≤ 30 := by
  constructor
  · exact le_max_left 0 _
  · apply max_le (by norm_num)
    have : (0 : ℚ) ≤ (pendingPayroll : ℚ) * 5 := by positivity
    linarith

lemma budgetScoreOf_bounds (expenses : List Expense) (budgets : List Budget)
    (now : Int × Int) :
    0 ≤ budgetScoreOf expenses budgets now ∧ budgetScoreOf expenses budgets now ≤ 30 := by
  constructor
  · exact le_max_left 0 _
  · unfold budgetScoreOf
    rw [budget_foldl_eq_countP]
    apply max_le (by norm_num)
    have : (0 : ℚ) ≤ 10 * (budgets.countP fun b =>
        decide (b.monthly_limit < monthlySpendOf expenses now b.category)) := by positivity
    linarith

lemma round_mono_q {x y : ℚ} (h : x ≤ y) : round x ≤ round y := by
  rw [round_eq, round_eq]
  exact Int.floor_le_floor (by linarith)

/-- Claim C2 (amended): `overall_score` always lies in [0, 10], and the
returned grade is the documented threshold map applied to the unrounded
0–10 score (the sum of the three components divided by 10).  The original
claim applied the thresholds to the returned, rounded `overall_score`;
that fails when rounding crosses a threshold (see the counterexample). -/
theorem calculateHealthScore_spec (expenses : List Expense) (budgets : List Budget)
    (pendingPayroll : ℕ) (now : Int × Int) :
    0 ≤ (calculateHealthScore expenses budgets pendingPayroll now).overall_score ∧
    (calculateHealthScore expenses budgets pendingPayroll now).overall_score ≤ 10 ∧
    (calculateHealthScore expenses budgets pendingPayroll now).grade =
      gradeOf ((expenseScoreOf expenses + payrollScoreOf pendingPayroll +
        budgetScoreOf expenses budgets now) / 10) := by
  obtain ⟨e0, e40⟩ := expenseScoreOf_bounds expenses
  obtain ⟨p0, p30⟩ := payrollScoreOf_bounds pendingPayroll
  obtain ⟨b0, b30⟩ := budgetScoreOf_bounds expenses budgets now
  have h0 : (0 : ℚ) ≤ expenseScoreOf expenses + payrollScoreOf pendingPayroll +
      budgetScoreOf expenses budgets now := by linarith
  have h100 : expenseScoreOf expenses + payrollScoreOf pendingPayroll +
      budgetScoreOf expenses budgets now ≤ 100 := by linarith
  have hover : (calculateHealthScore expenses budgets pendingPayroll now).overall_score =
      ((round (expenseScoreOf expenses + payrollScoreOf pendingPayroll +
        budgetScoreOf expenses budgets now) : ℤ) : ℚ) / 10 := by
    simp only [calculateHealthScore, toFixed1]
    rw [div_mul_cancel₀ _ (by norm_num : (10 : ℚ) ≠ 0)]
  refine ⟨?_, ?_, ?_⟩
  · rw [hover]
    have : (0 : ℤ) ≤ round (expenseScoreOf expenses + payrollScoreOf pendingPayroll +
        budgetScoreOf expenses budgets now) := by
      have := round_mono_q h0
      simpa using this
    positivity
  · rw [hover]
    have : round (expenseScoreOf expenses + payrollScoreOf pendingPayroll +
        budgetScoreOf expenses budgets now) ≤ (100 : ℤ) := by
      have := round_mono_q h100
      have h100r : round (100 : ℚ) = 100 := by
        rw [round_eq]; norm_num
      rwa [h100r] at this
    rw [div_le_iff₀ (by norm_num : (0 : ℚ) < 10)]
    calc ((round (expenseScoreOf expenses + payrollScoreOf pendingPayroll +
            budgetScoreOf expenses budgets now) : ℤ) : ℚ)
        ≤ ((100 : ℤ) : ℚ) := by exact_mod_cast this
      _ = 10 * 10 := by norm_num
  · rfl

/-- Counterexample to claim C2 as stated: on `exC2` (no budgets, no pending
payroll) the raw score is 8.975, so the returned grade is "B", yet the
returned `overall_score` rounds up to 9.0, for which the documented
thresholds give "A".  The grade is therefore not determined by the returned
`overall_score`. -/
theorem healthScore_rounding_crosses_grade :
    (calculateHealthScore exC2 [] 0 (2024, 1)).overall_score = 9 ∧
    (calculateHealthScore exC2 [] 0 (2024, 1)).grade = "B" ∧
    gradeOf (calculateHealthScore exC2 [] 0 (2024, 1)).overall_score = "A" := by
  have hexp : expenseScoreOf exC2 = 119 / 4 := by
    have h1 : (exC2.filter fun e => e.is_anomaly).length = 13 := by decide
    have h2 : (exC2.filter fun e => e.status == "pending").length = 1 := by decide
    have h3 : exC2.length = 20 := by decide
    unfold expenseScoreOf anomalyRateOf pendingRateOf
    rw [h1, h2, h3]
    norm_num
  have hpay : payrollScoreOf 0 = 30 := by norm_num [payrollScoreOf]
  have hbud : budgetScoreOf exC2 [] (2024, 1) = 30 := by
    unfold budgetScoreOf
    norm_num
  have htot : expenseScoreOf exC2 + payrollScoreOf 0 + budgetScoreOf exC2 [] (2024, 1)
      = 359 / 4 := by rw [hexp, hpay, hbud]; norm_num
  have hover : (calculateHealthScore exC2 [] 0 (2024, 1)).overall_score = 9 := by
    simp only [calculateHealthScore, toFixed1, htot]
    rw [show (359 / 4 : ℚ) / 10 * 10 = 359 / 4 by norm_num]
    rw [round_eq]
    norm_num
  refine ⟨hover, ?_, ?_⟩
  · have : (calculateHealthScore exC2 [] 0 (2024, 1)).grade = gradeOf (359 / 4 / 10) := by
      simp only [calculateHealthScore, htot]
    rw [this]
    unfold gradeOf
    norm_num
  · rw [hover]
    unfold gradeOf
    norm_num

/-- Claim C5 (amended): the budget component is 30 minus 10 for each budget
— active or not — whose current-calendar-month category spend exceeds its
monthly limit, floored at 0; `is_active` never affects the result (setting
every budget active yields the identical insight record). -/
theorem calculateHealthScore_budget_spec (expenses : List Expense) (budgets : List Budget)
    (pendingPayroll : ℕ) (now : Int × Int) :
    (calculateHealthScore expenses budgets pendingPayroll now).budget_adherence =
      toFixed1 ((max (0 : ℚ) (30 - 10 * ((budgets.countP fun b =>
        decide (b.monthly_limit < monthlySpendOf expenses now b.category)) : ℚ))) / 3) ∧
    calculateHealthScore expenses
        (budgets.map fun b => { category := b.category, monthly_limit := b.monthly_limit,
                                is_active := true })
        pendingPayroll now =
      calculateHealthScore expenses budgets pendingPayroll now := by
  have hb : ∀ bs : List Budget, budgetScoreOf expenses bs now =
      max (0 : ℚ) (30 - 10 * ((bs.countP fun b =>
        decide (b.monthly_limit < monthlySpendOf expenses now b.category)) : ℚ)) := by
    intro bs
    unfold budgetScoreOf
    rw [budget_foldl_eq_countP]
  constructor
  · simp only [calculateHealthScore]
    rw [hb]
  · have hmap : budgetScoreOf expenses
        (budgets.map fun b => { category := b.category, monthly_limit := b.monthly_limit,
                                is_active := true })
        now = budgetScoreOf expenses budgets now := by
      rw [hb, hb, List.countP_map]
      rfl
    simp only [calculateHealthScore, hmap]

lemma le_leftmostMax1 (d : String × Nat) (l : List (String × Nat)) :
    d.2 ≤ (leftmostMax1 d l).2 := by
  cases l with
  | nil => exact le_refl _
  | cons p l =>
      simp only [leftmostMax1]
      split
      · exact le_refl _
      · omega

lemma leftmostMax1_absorb (l : List (String × Nat)) (d p : String × Nat)
    (h : p.2 ≤ d.2) :
    leftmostMax1 d l = if (leftmostMax1 p l).2 ≤ d.2 then d else leftmostMax1 p l := by
  cases l with
  | nil => simp [leftmostMax1, h]
  | cons r l =>
      simp only [leftmostMax1]
      split_ifs <;> first | rfl | (exfalso; omega)

lemma leftmostMax1_self_or_gt (d : String × Nat) (l : List (String × Nat)) :
    leftmostMax1 d l = d ∨ d.2 < (leftmostMax1 d l).2 := by
  cases l with
  | nil => exact Or.inl rfl
  | cons p l =>
      simp only [leftmostMax1]
      split
      · exact Or.inl rfl
      · right; omega

/-- The strict-improvement fold of the source keeps exactly the leftmost
maximum (the incumbent wins ties). -/
lemma foldl_strict_eq_leftmostMax1 (l : List (String × Nat)) (d : String × Nat) :
    l.foldl (fun b p => if b.2 < p.2 then p else b) d = leftmostMax1 d l := by
  induction l generalizing d with
  | nil => rfl
  | cons p l ih =>
      simp only [List.foldl_cons, leftmostMax1]
      by_cases h : d.2 < p.2
      · rw [if_pos h, ih]
        have hq := le_leftmostMax1 p l
        rw [if_neg (by omega)]
      · rw [if_neg h, ih]
        exact leftmostMax1_absorb l d p (by omega)

/-- Skipping the "other" row and inlining the score computation turns the
source fold into the strict-improvement fold over the scored categories. -/
lemma foldl_skip_eq (text : String) (l : List (String × List String)) (b : String × Nat) :
    l.foldl
        (fun (best : String × Nat) ck =>
          if ck.1 = "other" then best
          else if best.2 < keywordScore text ck.2 then (ck.1, keywordScore text ck.2) else best)
        b
      = ((l.filter fun ck => ck.1 ≠ "other").map
          fun ck => (ck.1, keywordScore text ck.2)).foldl
            (fun b p => if b.2 < p.2 then p else b) b := by
  induction l generalizing b with
  | nil => rfl
  | cons ck l ih =>
      by_cases h : ck.1 = "other"
      · simp only [List.foldl_cons, List.filter_cons]
        rw [if_pos h, if_neg (by simp [h] : ¬(decide (ck.1 ≠ "other") = true))]
        exact ih b
      · simp only [List.foldl_cons, List.filter_cons]
        rw [if_neg h, if_pos (by simp [h] : decide (ck.1 ≠ "other") = true)]
        rw [List.map_cons, List.foldl_cons]
        exact ih _

/-- Claim C6: `categorizeExpense` implements exactly the claimed selection
and confidence rule, for every title, description and amount. -/
theorem categorizeExpense_eq_claim (title description : String) (amount : ℚ) :
    categorizeExpense title description amount = claimCategorize title description := by
  simp only [categorizeExpense, claimCategorize]
  rw [foldl_skip_eq, foldl_strict_eq_leftmostMax1]
  rw [show ((categoryKeywords.filter fun ck => ck.1 ≠ "other").map
      fun ck => (ck.1, keywordScore ((title ++ " " ++ description).toLower) ck.2))
      = scoredCategories ((title ++ " " ++ description).toLower) from rfl]
  rcases leftmostMax1_self_or_gt ("other", 0)
      (scoredCategories ((title ++ " " ++ description).toLower)) with h | h
  · rw [h]
    simp
  · have h2 : 0 < (leftmostMax1 ("other", 0)
        (scoredCategories ((title ++ " " ++ description).toLower))).2 := h
    rw [if_pos h2, if_neg (by omega)]

/-- Claim C4 (amended): `predictCashFlow` returns exactly `monthsAhead`
predictions, and every prediction whose unrounded extrapolated value
`avg + trend × i` is nonnegative has
`confidence_interval[0] ≤ predicted_expenses ≤ confidence_interval[1]`.
The nonnegativity condition is forced by the counterexample below: a
negative extrapolation makes `margin = 0.15 × predicted` negative and
inverts the interval. -/
theorem predictCashFlow_spec (hist : List Expense) (monthlyBudget : ℚ)
    (monthsAhead : ℕ) (now : Int × Int)
    (hne : hist ≠ []) (hma : 1 ≤ monthsAhead) :
    (predictCashFlow hist monthlyBudget monthsAhead now).length = monthsAhead ∧
    (∀ j : ℕ, j < monthsAhead →
      0 ≤ avgOf hist + trendOf hist * ((j + 1 : ℕ) : ℚ) →
      (predictCashFlow hist monthlyBudget monthsAhead now).get? j =
          some (mkPrediction (avgOf hist) (trendOf hist) monthlyBudget now (j + 1)) ∧
      (mkPrediction (avgOf hist) (trendOf hist) monthlyBudget now (j + 1)).confidence_interval.1
          ≤ (mkPrediction (avgOf hist) (trendOf hist) monthlyBudget now (j + 1)).predicted_expenses ∧
      (mkPrediction (avgOf hist) (trendOf hist) monthlyBudget now (j + 1)).predicted_expenses
          ≤ (mkPrediction (avgOf hist) (trendOf hist) monthlyBudget now (j + 1)).confidence_interval.2) := by
  constructor
  · simp [predictCashFlow]
  · intro j hj hpred
    refine ⟨?_, ?_, ?_⟩
    · simp only [predictCashFlow, List.get?_eq_getElem?, List.getElem?_map,
        List.getElem?_range hj, Option.map_some]
      rfl
    · show round (avgOf hist + trendOf hist * ((j + 1 : ℕ) : ℚ) -
          (avgOf hist + trendOf hist * ((j + 1 : ℕ) : ℚ)) * (15 / 100)) ≤
        round (avgOf hist + trendOf hist * ((j + 1 : ℕ) : ℚ))
      apply round_mono_q
      nlinarith
    · show round (avgOf hist + trendOf hist * ((j + 1 : ℕ) : ℚ)) ≤
        round (avgOf hist + trendOf hist * ((j + 1 : ℕ) : ℚ) +
          (avgOf hist + trendOf hist * ((j + 1 : ℕ) : ℚ)) * (15 / 100))
      apply round_mono_q
      nlinarith

lemma avgOf_janfeb : avgOf [expJan, expFeb] = 550 := by
  norm_num [avgOf, monthlyTotals, addToMonth, expJan, expFeb]

lemma trendOf_janfeb : trendOf [expJan, expFeb] = -450 := by
  norm_num [trendOf, monthlyTotals, addToMonth, expJan, expFeb, List.getLastD]

/-- Counterexample to claim C4 as stated: on the two-expense history
(100 in January, 1000 in February) with `monthsAhead = 2`, the trend is
−450 and the second prediction extrapolates to −350, so the "interval"
is [−297, −402] and `confidence_interval[0] ≤ predicted_expenses` fails
(−297 ≰ −350 is false: −297 > −350). -/
theorem predictCashFlow_interval_inverted :
    (predictCashFlow [expJan, expFeb] 0 2 (2024, 2)).length = 2 ∧
    (predictCashFlow [expJan, expFeb] 0 2 (2024, 2)).get? 1 =
      some ⟨(2024, 4), -350, (-297, -402), 0, false⟩ ∧
    ¬((-297 : ℤ) ≤ (-350 : ℤ)) := by
  refine ⟨by simp [predictCashFlow], ?_, by norm_num⟩
  have hget : (predictCashFlow [expJan, expFeb] 0 2 (2024, 2)).get? 1 =
      some (mkPrediction (avgOf [expJan, expFeb]) (trendOf [expJan, expFeb]) 0 (2024, 2) 2) := by
    simp only [predictCashFlow, List.get?_eq_getElem?, List.getElem?_map]
    rfl
  rw [hget, avgOf_janfeb, trendOf_janfeb]
  have hmk : mkPrediction 550 (-450) 0 (2024, 2) 2 =
      ⟨(2024, 4), -350, (-297, -402), 0, false⟩ := by
    unfold mkPrediction addMonths
    norm_num [round_eq]
  rw [hmk]

/-- Witness for the amended C4 theorem at a one-expense history with
horizon 1: one prediction, with a well-ordered confidence interval around
the nonnegative extrapolation 100. -/
theorem predictCashFlow_spec_witness :
    (predictCashFlow [expJan] 0 1 (2024, 1)).length = 1 ∧
    (mkPrediction (avgOf [expJan]) (trendOf [expJan]) 0 (2024, 1) 1).confidence_interval.1 ≤
      (mkPrediction (avgOf [expJan]) (trendOf [expJan]) 0 (2024, 1) 1).predicted_expenses := by
  have havg : avgOf [expJan] = 100 := by
    norm_num [avgOf, monthlyTotals, addToMonth, expJan]
  have htrend : trendOf [expJan] = 0 := by
    norm_num [trendOf, monthlyTotals, addToMonth, expJan]
  have h := predictCashFlow_spec [expJan] 0 1 (2024, 1) (by simp) (le_refl 1)
  exact ⟨h.1, (h.2 0 (by norm_num) (by rw [havg, htrend]; norm_num)).2.1⟩

/-- Anything the per-category loop pushes is an increase/decrease pattern
for its own category, and only categories with at least 3 data points ever
push one. -/
lemma patternOf_some {c : String} {amts : List ℚ} {p : SpendingPattern}
    (h : patternOf c amts = some p) :
    (p.type = "increase" ∨ p.type = "decrease") ∧ p.category = c ∧ 3 ≤ amts.length := by
  unfold patternOf at h
  split at h
  · exact absurd h (by simp)
  · dsimp only at h
    split at h
    · rw [Option.some.injEq] at h
      subst h
      refine ⟨?_, rfl, by omega⟩
      dsimp only
      split
      · exact Or.inl rfl
      · exact Or.inr rfl
    · exact absurd h (by simp)

lemma mem_mainPatterns {expenses : List Expense} {cutoffDate : EDate}
    {p : SpendingPattern} (h : p ∈ mainPatterns expenses cutoffDate) :
    (p.type = "increase" ∨ p.type = "decrease") ∧
    ∃ g ∈ windowGroups expenses cutoffDate, g.1 = p.category ∧ 3 ≤ g.2.length := by
  obtain ⟨g, hg, hp⟩ := List.mem_filterMap.mp h
  obtain ⟨ht, hc, hl⟩ := patternOf_some hp
  exact ⟨ht, g, hg, hc.symm, hl⟩

lemma mainPatterns_no_stable (expenses : List Expense) (cutoffDate : EDate) :
    ∀ p ∈ mainPatterns expenses cutoffDate, ¬(p.type = "stable") := by
  intro p hp hst
  rcases (mem_mainPatterns hp).1 with h | h <;> rw [hst] at h <;> exact absurd h (by decide)

/-- Claim C7 (amended): `analyzeSpendingPatterns` emits at most one
"stable" pattern; when it does, that pattern is exactly the fixed record
for the first grouped category that produced no increase/decrease pattern —
regardless of how many data points that category has (the counterexample
shows a 1-point category contributing the stable pattern, so the claimed
"at least 3 data points" conjunct is dropped and "never contribute any
pattern" is weakened to "never contribute an increase/decrease pattern").
Categories of increase/decrease patterns always have ≥ 3 data points. -/
theorem analyzeSpendingPatterns_spec (expenses : List Expense) (cutoffDate : EDate) :
    ((analyzeSpendingPatterns expenses cutoffDate).filter
        fun p => p.type == "stable").length ≤ 1 ∧
    (∀ p ∈ analyzeSpendingPatterns expenses cutoffDate, p.type = "stable" →
      p.change = "±5%" ∧ p.priority = "low" ∧
        p.category = (stableCandidates expenses cutoffDate).headI) ∧
    (∀ p ∈ analyzeSpendingPatterns expenses cutoffDate, p.type ≠ "stable" →
      ∃ g ∈ windowGroups expenses cutoffDate, g.1 = p.category ∧ 3 ≤ g.2.length) := by
  have hmain : ∀ p ∈ mainPatterns expenses cutoffDate, (p.type == "stable") = false := by
    intro p hp
    simpa using mainPatterns_no_stable expenses cutoffDate p hp
  refine ⟨?_, ?_, ?_⟩
  · unfold analyzeSpendingPatterns
    rw [List.filter_append]
    rw [List.filter_eq_nil_iff.mpr (by intro p hp; simp [hmain p hp])]
    cases hsc : stableCandidates expenses cutoffDate with
    | nil => simp
    | cons c rest => simp
  · intro p hp hst
    unfold analyzeSpendingPatterns at hp
    rcases List.mem_append.mp hp with h | h
    · exact absurd hst (mainPatterns_no_stable expenses cutoffDate p h)
    · cases hsc : stableCandidates expenses cutoffDate with
      | nil => rw [hsc] at h; simp at h
      | cons c rest =>
          rw [hsc] at h
          simp only [List.mem_singleton] at h
          subst h
          exact ⟨rfl, rfl, rfl⟩
  · intro p hp hst
    unfold analyzeSpendingPatterns at hp
    rcases List.mem_append.mp hp with h | h
    · exact (mem_mainPatterns h).2
    · exfalso
      cases hsc : stableCandidates expenses cutoffDate with
      | nil => rw [hsc] at h; simp at h
      | cons c rest =>
          rw [hsc] at h
          simp only [List.mem_singleton] at h
          subst h
          exact hst rfl

/-- Claim C9: `categorizeExpense` is deterministic — two calls with
identical title, description and amount return the same category and
confidence. -/
theorem categorizeExpense_deterministic (t1 d1 : String) (a1 : ℚ) (t2 d2 : String) (a2 : ℚ)
    (ht : t1 = t2) (hd : d1 = d2) (ha : a1 = a2) :
    categorizeExpense t1 d1 a1 = categorizeExpense t2 d2 a2 := by
  subst ht; subst hd; subst ha; rfl

/-- Witness for C9 at a concrete repeated call. -/
theorem categorizeExpense_deterministic_witness :
    categorizeExpense "aws invoice" "cloud hosting" 42 =
      categorizeExpense "aws invoice" "cloud hosting" 42 :=
  categorizeExpense_deterministic "aws invoice" "cloud hosting" 42
    "aws invoice" "cloud hosting" 42 rfl rfl rfl

/-- Claim C10: the result of `categorizeExpense` does not depend on the
amount argument. -/
theorem categorizeExpense_amount_independent (title description : String) (a1 a2 : ℚ) :
    categorizeExpense title description a1 = categorizeExpense title description a2 := rfl

/-- Counterexample to claim C7 as stated: a category with a single data
point (fewer than 3) contributes the emitted "stable" pattern. -/
theorem analyzeSpendingPatterns_single_point_stable :
    analyzeSpendingPatterns [lonePoint] cutC7 =
      [⟨"stable", "a", "±5%", "Spending is stable and predictable", "low"⟩] ∧
    (([lonePoint].filter fun e => cutC7.leb e.expense_date).filter
        fun e => e.category == "a").length = 1 := by
  decide

/-- Witness for the amended C7 theorem: on the one-expense history the
emitted stable pattern carries the fixed text, low priority, and the first
pattern-free category. -/
theorem analyzeSpendingPatterns_spec_witness :
    (⟨"stable", "w", "±5%", "Spending is stable and predictable", "low"⟩ : SpendingPattern).change
        = "±5%" ∧
    (⟨"stable", "w", "±5%", "Spending is stable and predictable", "low"⟩ : SpendingPattern).priority
        = "low" ∧
    (⟨"stable", "w", "±5%", "Spending is stable and predictable", "low"⟩ : SpendingPattern).category
        = (stableCandidates [loneW] cutC7).headI :=
  (analyzeSpendingPatterns_spec [loneW] cutC7).2.1
    ⟨"stable", "w", "±5%", "Spending is stable and predictable", "low"⟩
    (by decide) (by decide)

/-- Claim C8 is a code bug: the `changePercent` division of the source is not
guarded, so a zero older-half average with a positive recent average yields
JS `Infinity`, and the analyzer emits a "+Infinity%" change string instead
of any defined fallback. -/
theorem analyzeSpendingPatterns_emits_infinity :
    analyzeSpendingPatterns [zeroOlder1, zeroOlder2, zeroOlder3] cutC7 =
      [⟨"increase", "z", "+Infinity%", "Review recent purchases and ROI", "high"⟩] := by
  have hw : windowGroups [zeroOlder1, zeroOlder2, zeroOlder3] cutC7 =
      [("z", [5, 0, 0])] := by decide
  have hpat : patternOf "z" [5, 0, 0] =
      some ⟨"increase", "z", "+Infinity%", "Review recent purchases and ROI", "high"⟩ := by
    unfold patternOf
    rw [if_neg (by norm_num)]
    dsimp only
    rw [show List.take (([5, 0, 0] : List ℚ).length / 2) [5, 0, 0] = [(5 : ℚ)] from rfl,
        show List.drop (([5, 0, 0] : List ℚ).length / 2) [5, 0, 0] = [(0 : ℚ), 0] from rfl]
    rw [show ([(5 : ℚ)]).sum / (([(5 : ℚ)]).length : ℚ) = 5 by norm_num,
        show ([(0 : ℚ), 0]).sum / (([(0 : ℚ), 0]).length : ℚ) = 0 by norm_num]
    rw [show (5 : ℚ) - 0 = 5 by norm_num]
    rw [show jsDiv 5 0 = JsNum.posInf by unfold jsDiv; norm_num]
    rfl
  have hmain : mainPatterns [zeroOlder1, zeroOlder2, zeroOlder3] cutC7 =
      [⟨"increase", "z", "+Infinity%", "Review recent purchases and ROI", "high"⟩] := by
    unfold mainPatterns
    rw [hw]
    simp [hpat]
  have hstable : stableCandidates [zeroOlder1, zeroOlder2, zeroOlder3] cutC7 = [] := by
    unfold stableCandidates
    rw [hw, hmain]
    decide
  unfold analyzeSpendingPatterns
  rw [hmain, hstable]
  rfl

/-- Counterexample to claim C5 as stated: a budget with `is_active = false`
whose category spend (100) exceeds its limit (10) does reduce the score —
the overall score drops from 10 to 9 when the inactive budget is supplied. -/
theorem healthScore_inactive_budget_reduces :
    inactiveBudget.is_active = false ∧
    (calculateHealthScore [exC5] [inactiveBudget] 0 (2024, 1)).overall_score = 9 ∧
    (calculateHealthScore [exC5] [] 0 (2024, 1)).overall_score = 10 := by
  have hexp : expenseScoreOf [exC5] = 40 := by
    have h1 : ([exC5].filter fun e => e.is_anomaly).length = 0 := by decide
    have h2 : ([exC5].filter fun e => e.status == "pending").length = 0 := by decide
    have h3 : ([exC5] : List Expense).length = 1 := by decide
    unfold expenseScoreOf anomalyRateOf pendingRateOf
    rw [h1, h2, h3]
    norm_num
  have hpay : payrollScoreOf 0 = 30 := by norm_num [payrollScoreOf]
  have hspend : monthlySpendOf [exC5] (2024, 1) "x" = 100 := by
    simp only [monthlySpendOf]
    rw [show ([exC5].filter fun e =>
        e.expense_date.month == (2024, 1).2 && e.expense_date.year == (2024, 1).1) = [exC5]
      from by decide]
    rw [show ([exC5].filter fun e => e.category == "x") = [exC5] from by decide]
    simp [exC5]
  have hbud1 : budgetScoreOf [exC5] [inactiveBudget] (2024, 1) = 20 := by
    unfold budgetScoreOf
    rw [budget_foldl_eq_countP]
    have : ([inactiveBudget].countP fun b =>
        decide (b.monthly_limit < monthlySpendOf [exC5] (2024, 1) b.category)) = 1 := by
      simp [List.countP_cons, inactiveBudget, hspend]
      norm_num
    rw [this]
    norm_num
  have hbud0 : budgetScoreOf [exC5] [] (2024, 1) = 30 := by
    unfold budgetScoreOf
    norm_num
  refine ⟨rfl, ?_, ?_⟩
  · simp only [calculateHealthScore, toFixed1, hexp, hpay, hbud1]
    rw [show (40 + 30 + 20 : ℚ) / 10 * 10 = 90 by norm_num]
    rw [round_eq]
    norm_num
  · simp only [calculateHealthScore, toFixed1, hexp, hpay, hbud0]
    rw [show (40 + 30 + 30 : ℚ) / 10 * 10 = 100 by norm_num]
    rw [round_eq]
    norm_num
